import Mathlib

/-!
Shallow embedding of the "buddy" CRUD component, in its two variants:

* `Part000`  — the variant in `src/unnamed/part_000` (local-patch strategy:
  append / map / filter on the local list, `alert` for errors,
  `age : number`, guard `!editName || !editAge` on save).
* `BuddyTable` — the variant in `src/src/lib/BuddyTable.svelte` (re-list
  strategy: refetch after a successful create/update/delete, inline
  `error` banner, `age : string`, save guarded only by `!editingBuddy`).

Each event handler is embedded as a pure function from the component state
and the outcome of its network request(s) to the new state plus a log of
effects (HTTP requests issued, `alert` dialogs shown).  A network outcome is
one of: a 2xx response with a parsed body, a non-2xx status (the code throws
`HTTP ...`), or a thrown exception (transport failure or a `res.json()`
parse failure) carrying its message.
-/

namespace JS

/-- A JavaScript number as it occurs in this code: an integer, or NaN
(`none`).  The only operations the component applies to numbers are `<`
comparisons, for which NaN compares false. -/
abbrev JSNum := Option Int

/-- JavaScript `<` between a possibly-NaN number and an integer literal:
`NaN < b` is `false`. -/
def jsLt (a : JSNum) (b : Int) : Bool :=
  match a with
  | none => false
  | some n => decide (n < b)

/-- Truthiness of a JS string: `""` is falsy. -/
def strFalsy (s : String) : Bool := s == ""

/-- Truthiness of a `number | ''` value (the type of the age inputs in
`part_000`): `''` (here `none`) and `0` are falsy. -/
def numFalsy (v : Option Int) : Bool :=
  match v with
  | none => true
  | some n => n == 0

/-- JavaScript `a || b` on strings: `b` when `a` is falsy (empty). -/
def strOr (a b : String) : String := if a == "" then b else a

/-- Whitespace accepted by `parseInt` (ASCII fragment). -/
def isSpaceChar (c : Char) : Bool :=
  c == ' ' || c == '\t' || c == '\n' || c == '\r' || c == '\x0b' || c == '\x0c'

/-- Value of a digit character under the given radix, `none` when the
character is not a digit of that radix. -/
def digitVal (radix : Nat) (c : Char) : Option Nat :=
  let v :=
    if '0' ≤ c ∧ c ≤ '9' then some (c.toNat - '0'.toNat)
    else if 'a' ≤ c ∧ c ≤ 'z' then some (c.toNat - 'a'.toNat + 10)
    else if 'A' ≤ c ∧ c ≤ 'Z' then some (c.toNat - 'A'.toNat + 10)
    else none
  match v with
  | some d => if d < radix then some d else none
  | none => none

/-- Accumulate the longest leading run of digits of the given radix. -/
def readDigits (radix : Nat) : List Char → Nat → Nat
  | [], acc => acc
  | c :: rest, acc =>
    match digitVal radix c with
    | some d => readDigits radix rest (acc * radix + d)
    | none => acc

/-- Model of JavaScript `parseInt(s)` (default radix): skip leading
whitespace, read an optional sign, switch to radix 16 after `0x`/`0X`,
then read leading digits; NaN (`none`) when no digit follows. -/
def parseInt (s : String) : JSNum :=
  let cs := s.toList.dropWhile isSpaceChar
  let signed :=
    match cs with
    | '-' :: rest => (true, rest)
    | '+' :: rest => (false, rest)
    | _ => (false, cs)
  let based :=
    match signed.2 with
    | '0' :: 'x' :: rest => (16, rest)
    | '0' :: 'X' :: rest => (16, rest)
    | _ => (10, signed.2)
  match based.2 with
  | [] => none
  | c :: _ =>
    match digitVal based.1 c with
    | none => none
    | some _ =>
      let n : Int := Int.ofNat (readDigits based.1 based.2 0)
      some (if signed.1 then -n else n)

end JS

namespace Part000

/-- The `Buddy` interface of `part_000`: `id: number`, `name: string`,
`age: number`. -/
structure Buddy where
  id : Int
  name : String
  age : Int
deriving DecidableEq, Repr

/-- The component state of `part_000`: the local list, the loading and
error flags, the add-form fields `newName`/`newAge`, and the edit state
`editingId`/`editName`/`editAge`.  The age inputs have TS type
`number | ''`; `none` stands for `''`. -/
structure State where
  buddies : List Buddy
  isLoading : Bool
  error : Option String
  newName : String
  newAge : Option Int
  editingId : Option Int
  editName : String
  editAge : Option Int
deriving DecidableEq, Repr

/-- An HTTP request issued by the component, with the body it sends. -/
inductive Request where
  | read
  | create (name : String) (age : Option Int)
  | update (id : Int) (name : String) (age : Option Int)
  | del (id : Int)
deriving DecidableEq, Repr

/-- Observable effects of one handler run: requests sent and `alert`
dialogs shown. -/
structure Effects where
  requests : List Request
  alerts : List String
deriving DecidableEq, Repr

/-- Outcome of the `GET /readJSON` call: 2xx with a parsed body, a non-2xx
status (the code throws `HTTP {status}`), or a thrown exception with its
message. -/
inductive FetchOutcome where
  | ok (data : List Buddy)
  | httpError (status : Nat)
  | threw (msg : String)
deriving DecidableEq, Repr

/-- Outcome of the `POST /writeJSON` call: `ok` carries the parsed
`data.received` record, `err` the parsed `data.error` message of a non-2xx
response, `threw` the message of a thrown exception. -/
inductive CreateOutcome where
  | ok (received : Buddy)
  | err (errorMsg : String)
  | threw (msg : String)
deriving DecidableEq, Repr

/-- Outcome of the `DELETE` / `PUT` calls: `ok` for 2xx, `err` for the
parsed `data.error` of a non-2xx response, `threw` for an exception. -/
inductive ActionOutcome where
  | ok
  | err (errorMsg : String)
  | threw (msg : String)
deriving DecidableEq, Repr

/-- `fetchBuddies` of `part_000`: sets `isLoading`, issues the read, on
success replaces `buddies` with the response body; on a non-2xx status the
code throws `HTTP {status}` and the catch stores
`e.message || "Failed to load buddies"` in `error`; `finally` clears
`isLoading`.  (`error` is not reset on entry in this variant.) -/
def fetchBuddies (s : State) (o : FetchOutcome) : State × Effects :=
  let s0 := { s with isLoading := true }
  match o with
  | .ok data =>
      ({ s0 with buddies := data, isLoading := false }, ⟨[.read], []⟩)
  | .httpError n =>
      ({ s0 with error := some (JS.strOr ("HTTP " ++ toString n) "Failed to load buddies"),
                 isLoading := false }, ⟨[.read], []⟩)
  | .threw m =>
      ({ s0 with error := some (JS.strOr m "Failed to load buddies"),
                 isLoading := false }, ⟨[.read], []⟩)

/-- `addBuddy` of `part_000`: returns immediately when
`!newName || !newAge`; otherwise POSTs `{name, age}`; on `res.ok` appends
`data.received` and clears the form; otherwise `alert(data.error)`, and on
a thrown exception `alert(e.message)`. -/
def addBuddy (s : State) (resp : CreateOutcome) : State × Effects :=
  if JS.strFalsy s.newName || JS.numFalsy s.newAge then (s, ⟨[], []⟩)
  else
    let req := Request.create s.newName s.newAge
    match resp with
    | .ok received =>
        ({ s with buddies := s.buddies ++ [received], newName := "", newAge := none },
         ⟨[req], []⟩)
    | .err m => (s, ⟨[req], [m]⟩)
    | .threw m => (s, ⟨[req], [m]⟩)

/-- `deleteBuddy` of `part_000`: returns when the confirm dialog is
declined; otherwise sends the DELETE; on `res.ok` drops every record whose
id equals the target from the local list; otherwise alerts the parsed
`data.error` (or the exception message). -/
def deleteBuddy (s : State) (id : Int) (confirmed : Bool) (resp : ActionOutcome) :
    State × Effects :=
  if !confirmed then (s, ⟨[], []⟩)
  else
    let req := Request.del id
    match resp with
    | .ok =>
        ({ s with buddies := s.buddies.filter fun b => b.id != id }, ⟨[req], []⟩)
    | .err m => (s, ⟨[req], [m]⟩)
    | .threw m => (s, ⟨[req], [m]⟩)

/-- `startEdit` of `part_000`: snapshots the record into the edit buffers;
no network call. -/
def startEdit (s : State) (buddy : Buddy) : State × Effects :=
  ({ s with editingId := some buddy.id, editName := buddy.name, editAge := some buddy.age },
   ⟨[], []⟩)

/-- `saveEdit` of `part_000`: returns immediately when
`!editName || !editAge`; otherwise PUTs `{name: editName, age: editAge}`;
on `res.ok` replaces the targeted record in place with
`{ id, name: editName, age: editAge }` and leaves edit mode; otherwise
alerts the error.  Under the guard `editAge` is a nonzero number, so
`s.editAge.getD 0` below is exactly that number. -/
def saveEdit (s : State) (id : Int) (resp : ActionOutcome) : State × Effects :=
  if JS.strFalsy s.editName || JS.numFalsy s.editAge then (s, ⟨[], []⟩)
  else
    let req := Request.update id s.editName s.editAge
    match resp with
    | .ok =>
        ({ s with
            buddies := s.buddies.map fun b =>
              if b.id = id then { id := id, name := s.editName, age := s.editAge.getD 0 } else b,
            editingId := none }, ⟨[req], []⟩)
    | .err m => (s, ⟨[req], [m]⟩)
    | .threw m => (s, ⟨[req], [m]⟩)

/-- `cancelEdit` of `part_000`: clears the editing marker only; no network
call, buffers untouched. -/
def cancelEdit (s : State) : State × Effects :=
  ({ s with editingId := none }, ⟨[], []⟩)

/-- `getAgeColor` of `part_000`.  The parameter has TS type `number`,
embedded as `JS.JSNum` so that a NaN input is representable; in the view it
is applied to `buddy.age`. -/
def getAgeColor (age : JS.JSNum) : String :=
  if JS.jsLt age 20 then "color-young"
  else if JS.jsLt age 40 then "color-middle"
  else "color-old"

end Part000

namespace BuddyTable

/-- The `Buddy` interface of `BuddyTable.svelte`: `id: number`,
`name: string`, `age: string` (the Flask backend stores age as TEXT). -/
structure Buddy where
  id : Int
  name : String
  age : String
deriving DecidableEq, Repr

/-- The component state of `BuddyTable.svelte`.  All form fields are
strings (`newAge`/`editAge` are bound to number inputs but declared
`string`); `editingBuddy` holds the record being edited, `none` outside
edit mode. -/
structure State where
  buddies : List Buddy
  isLoading : Bool
  error : Option String
  newName : String
  newAge : String
  editingBuddy : Option Buddy
  editName : String
  editAge : String
deriving DecidableEq, Repr

/-- An HTTP request issued by this variant, with the body it sends. -/
inductive Request where
  | read
  | create (name : String) (age : String)
  | update (id : Int) (name : String) (age : String)
  | del (id : Int)
deriving DecidableEq, Repr

/-- Observable effects of one handler run.  This variant never calls
`alert`; the field is kept for uniformity and stays empty. -/
structure Effects where
  requests : List Request
  alerts : List String
deriving DecidableEq, Repr

/-- Outcome of the `GET /readJSON` call (2xx + parsed body, non-2xx
status, or thrown exception).  The success body is mapped with
`b => ({...b, id: Number(b.id)})`; ids are already numeric in the model,
so the map is the identity on the id field. -/
inductive FetchOutcome where
  | ok (data : List Buddy)
  | httpError (status : Nat)
  | threw (msg : String)
deriving DecidableEq, Repr

/-- Outcome of a `POST`/`PUT`/`DELETE` call in this variant: the code only
looks at `res.ok` and the status (no body is parsed), so `ok`, a non-2xx
status, or a thrown exception. -/
inductive WriteOutcome where
  | ok
  | httpError (status : Nat)
  | threw (msg : String)
deriving DecidableEq, Repr

/-- `fetchBuddies` of `BuddyTable.svelte`: sets `isLoading` and resets
`error` on entry; on success replaces `buddies` with the mapped body; on a
non-2xx status the code throws `HTTP status {n}` and the catch stores
`Error fetching data: {e.message}`; `finally` clears `isLoading`. -/
def fetchBuddies (s : State) (o : FetchOutcome) : State × Effects :=
  let s0 := { s with isLoading := true, error := none }
  match o with
  | .ok data =>
      ({ s0 with buddies := data.map fun b => { b with id := b.id }, isLoading := false },
       ⟨[.read], []⟩)
  | .httpError n =>
      ({ s0 with error := some ("Error fetching data: HTTP status " ++ toString n),
                 isLoading := false }, ⟨[.read], []⟩)
  | .threw m =>
      ({ s0 with error := some ("Error fetching data: " ++ m),
                 isLoading := false }, ⟨[.read], []⟩)

/-- `addBuddy` of `BuddyTable.svelte`: returns when
`!newName || !newAge`; otherwise POSTs `{name, age}`; on success clears
the form and re-runs `fetchBuddies` (whose outcome is the extra
parameter); on failure stores `Error adding buddy: {e.message}`. -/
def addBuddy (s : State) (resp : WriteOutcome) (refetch : FetchOutcome) : State × Effects :=
  if JS.strFalsy s.newName || JS.strFalsy s.newAge then (s, ⟨[], []⟩)
  else
    let req := Request.create s.newName s.newAge
    match resp with
    | .ok =>
        let r := fetchBuddies { s with newName := "", newAge := "" } refetch
        (r.1, ⟨req :: r.2.requests, r.2.alerts⟩)
    | .httpError n =>
        ({ s with error := some ("Error adding buddy: HTTP status " ++ toString n) },
         ⟨[req], []⟩)
    | .threw m =>
        ({ s with error := some ("Error adding buddy: " ++ m) }, ⟨[req], []⟩)

/-- `deleteBuddy` of `BuddyTable.svelte`: returns when the confirm dialog
is declined; otherwise sends the DELETE; on success re-runs
`fetchBuddies`; on failure stores `Error deleting buddy: {e.message}`. -/
def deleteBuddy (s : State) (id : Int) (confirmed : Bool) (resp : WriteOutcome)
    (refetch : FetchOutcome) : State × Effects :=
  if !confirmed then (s, ⟨[], []⟩)
  else
    let req := Request.del id
    match resp with
    | .ok =>
        let r := fetchBuddies s refetch
        (r.1, ⟨req :: r.2.requests, r.2.alerts⟩)
    | .httpError n =>
        ({ s with error := some ("Error deleting buddy: HTTP status " ++ toString n) },
         ⟨[req], []⟩)
    | .threw m =>
        ({ s with error := some ("Error deleting buddy: " ++ m) }, ⟨[req], []⟩)

/-- `startEdit` of `BuddyTable.svelte`: snapshots the record and its
fields into the edit buffers; no network call. -/
def startEdit (s : State) (buddy : Buddy) : State × Effects :=
  ({ s with editingBuddy := some buddy, editName := buddy.name, editAge := buddy.age },
   ⟨[], []⟩)

/-- `saveEdit` of `BuddyTable.svelte`: the only guard is
`if (!editingBuddy) return;` — the edit buffers are NOT validated.  It
PUTs `{name: editName, age: editAge}` to `/editJSON/{editingBuddy.id}`;
on success clears `editingBuddy` and re-runs `fetchBuddies`; on failure
stores `Error updating buddy: {e.message}`. -/
def saveEdit (s : State) (resp : WriteOutcome) (refetch : FetchOutcome) : State × Effects :=
  match s.editingBuddy with
  | none => (s, ⟨[], []⟩)
  | some eb =>
    let req := Request.update eb.id s.editName s.editAge
    match resp with
    | .ok =>
        let r := fetchBuddies { s with editingBuddy := none } refetch
        (r.1, ⟨req :: r.2.requests, r.2.alerts⟩)
    | .httpError n =>
        ({ s with error := some ("Error updating buddy: HTTP status " ++ toString n) },
         ⟨[req], []⟩)
    | .threw m =>
        ({ s with error := some ("Error updating buddy: " ++ m) }, ⟨[req], []⟩)

/-- `cancelEdit` of `BuddyTable.svelte`: clears `editingBuddy` only; no
network call. -/
def cancelEdit (s : State) : State × Effects :=
  ({ s with editingBuddy := none }, ⟨[], []⟩)

/-- `getAgeColor` of `BuddyTable.svelte`: `parseInt` the age string, then
band by `< 20` / `< 40`; a NaN result fails both comparisons. -/
def getAgeColor (age : String) : String :=
  let numAge := JS.parseInt age
  if JS.jsLt numAge 20 then "color-young"
  else if JS.jsLt numAge 40 then "color-middle"
  else "color-old"

end BuddyTable

/-- Claim C2: the age classifier partitions ages into three
non-overlapping bands: every age below 20 is "young", every age in
[20, 40) is "middle", every age at least 40 is "old"; in particular 19 is
young, 20 and 39 are middle, 40 is old (checked on both variants, the
string-typed one at the corresponding numeric strings). -/
theorem C2_age_bands :
    (∀ n : Int, n < 20 → Part000.getAgeColor (some n) = "color-young")
    ∧ (∀ n : Int, 20 ≤ n → n < 40 → Part000.getAgeColor (some n) = "color-middle")
    ∧ (∀ n : Int, 40 ≤ n → Part000.getAgeColor (some n) = "color-old")
    ∧ BuddyTable.getAgeColor "19" = "color-young"
    ∧ BuddyTable.getAgeColor "20" = "color-middle"
    ∧ BuddyTable.getAgeColor "39" = "color-middle"
    ∧ BuddyTable.getAgeColor "40" = "color-old" := by
  refine ⟨?_, ?_, ?_, by decide, by decide, by decide, by decide⟩
  · intro n h
    simp [Part000.getAgeColor, JS.jsLt, h]
  · intro n h1 h2
    simp [Part000.getAgeColor, JS.jsLt, h2, not_lt.mpr h1]
  · intro n h
    have h20 : ¬ n < 20 := by omega
    have h40 : ¬ n < 40 := by omega
    simp [Part000.getAgeColor, JS.jsLt, h20, h40]

/-- Witness for C2 at the boundary ages 19, 20, 39 and 40. -/
theorem C2_age_bands_witness :
    Part000.getAgeColor (some 19) = "color-young"
    ∧ Part000.getAgeColor (some 20) = "color-middle"
    ∧ Part000.getAgeColor (some 39) = "color-middle"
    ∧ Part000.getAgeColor (some 40) = "color-old" :=
  ⟨C2_age_bands.1 19 (by decide),
   C2_age_bands.2.1 20 (by decide) (by decide),
   C2_age_bands.2.1 39 (by decide) (by decide),
   C2_age_bands.2.2.1 40 (by decide)⟩

/-- Claim C9: the age classifier is total and exhaustive — on every
input (including strings that do not parse to a number) it returns one of
exactly three classes, and a NaN age (parse failure, or NaN fed to the
numeric variant) lands in the "old" band, since `NaN < 20` and `NaN < 40`
are both false. -/
theorem C9_classifier_total :
    (∀ s : String,
        BuddyTable.getAgeColor s = "color-young"
        ∨ BuddyTable.getAgeColor s = "color-middle"
        ∨ BuddyTable.getAgeColor s = "color-old")
    ∧ (∀ s : String, JS.parseInt s = none → BuddyTable.getAgeColor s = "color-old")
    ∧ Part000.getAgeColor none = "color-old" := by
  refine ⟨?_, ?_, by decide⟩
  · intro s
    cases h1 : JS.jsLt (JS.parseInt s) 20
      <;> cases h2 : JS.jsLt (JS.parseInt s) 40
      <;> simp [BuddyTable.getAgeColor, h1, h2]
  · intro s h
    simp [BuddyTable.getAgeColor, h, JS.jsLt]

/-- Witness for C9 at a non-numeric age string. -/
theorem C9_classifier_total_witness :
    JS.parseInt "abc" = none ∧ BuddyTable.getAgeColor "abc" = "color-old" :=
  ⟨by decide, C9_classifier_total.2.1 "abc" (by decide)⟩

/-- Claim C10: every execution of the list operation, whatever its
outcome (success, non-2xx, or a thrown transport/parse error), ends with
`isLoading = false`, in both variants — the `finally` block always runs. -/
theorem C10_loading_always_cleared :
    (∀ (s : Part000.State) (o : Part000.FetchOutcome),
        (Part000.fetchBuddies s o).1.isLoading = false)
    ∧ (∀ (s : BuddyTable.State) (o : BuddyTable.FetchOutcome),
        (BuddyTable.fetchBuddies s o).1.isLoading = false) := by
  constructor
  · intro s o
    cases o <;> rfl
  · intro s o
    cases o <;> rfl

/-- Claim C7: entering edit mode on a record and then canceling issues no
HTTP request, leaves the local collection (hence every record's persisted
fields) identical, and returns to Viewing (no editing marker), in both
variants. -/
theorem C7_start_cancel_frame :
    (∀ (s : Part000.State) (b : Part000.Buddy),
        (Part000.cancelEdit (Part000.startEdit s b).1).1.buddies = s.buddies
        ∧ (Part000.cancelEdit (Part000.startEdit s b).1).1.editingId = none
        ∧ (Part000.startEdit s b).2.requests = []
        ∧ (Part000.cancelEdit (Part000.startEdit s b).1).2.requests = [])
    ∧ (∀ (s : BuddyTable.State) (b : BuddyTable.Buddy),
        (BuddyTable.cancelEdit (BuddyTable.startEdit s b).1).1.buddies = s.buddies
        ∧ (BuddyTable.cancelEdit (BuddyTable.startEdit s b).1).1.editingBuddy = none
        ∧ (BuddyTable.startEdit s b).2.requests = []
        ∧ (BuddyTable.cancelEdit (BuddyTable.startEdit s b).1).2.requests = []) := by
  constructor
  · intro s b
    exact ⟨rfl, rfl, rfl, rfl⟩
  · intro s b
    exact ⟨rfl, rfl, rfl, rfl⟩

/-- A string with a nonempty left component is nonempty. -/
theorem string_append_ne_empty (a b : String) (h : a.data ≠ []) : a ++ b ≠ "" := by
  intro hc
  have hd : (a ++ b).data = [] := by rw [hc]
  have hab : a.data ++ b.data = [] := by
    cases a; cases b; exact hd
  exact h (List.append_eq_nil.mp hab).1

/-- Claim C6: a list operation that ends in a non-2xx response or a thrown
transport/parse error leaves the component in the error state with a
non-empty message, and the local buddy collection exactly as it was, in
both variants. -/
theorem C6_fetch_failure_frame :
    (∀ (s : Part000.State) (n : Nat),
        ∃ m, (Part000.fetchBuddies s (.httpError n)).1.error = some m ∧ m ≠ ""
          ∧ (Part000.fetchBuddies s (.httpError n)).1.buddies = s.buddies)
    ∧ (∀ (s : Part000.State) (msg : String),
        ∃ m, (Part000.fetchBuddies s (.threw msg)).1.error = some m ∧ m ≠ ""
          ∧ (Part000.fetchBuddies s (.threw msg)).1.buddies = s.buddies)
    ∧ (∀ (s : BuddyTable.State) (n : Nat),
        ∃ m, (BuddyTable.fetchBuddies s (.httpError n)).1.error = some m ∧ m ≠ ""
          ∧ (BuddyTable.fetchBuddies s (.httpError n)).1.buddies = s.buddies)
    ∧ (∀ (s : BuddyTable.State) (msg : String),
        ∃ m, (BuddyTable.fetchBuddies s (.threw msg)).1.error = some m ∧ m ≠ ""
          ∧ (BuddyTable.fetchBuddies s (.threw msg)).1.buddies = s.buddies) := by
  refine ⟨?_, ?_, ?_, ?_⟩
  · intro s n
    have hne : ("HTTP " ++ toString n) ≠ "" := string_append_ne_empty _ _ (by decide)
    refine ⟨"HTTP " ++ toString n, ?_, hne, rfl⟩
    simp [Part000.fetchBuddies, JS.strOr, hne]
  · intro s msg
    by_cases h : msg = ""
    · subst h
      exact ⟨"Failed to load buddies", by simp [Part000.fetchBuddies, JS.strOr],
        by decide, rfl⟩
    · refine ⟨msg, ?_, h, rfl⟩
      simp [Part000.fetchBuddies, JS.strOr, h]
  · intro s n
    exact ⟨"Error fetching data: HTTP status " ++ toString n, rfl,
      string_append_ne_empty _ _ (by decide), rfl⟩
  · intro s msg
    exact ⟨"Error fetching data: " ++ msg, rfl,
      string_append_ne_empty _ _ (by decide), rfl⟩

/-- Claim C3: the create operation with an empty/falsy name or age is a
no-op in both variants: no request is sent, no alert shown, and the whole
component state (collection included) is returned unchanged. -/
theorem C3_create_guard :
    (∀ (s : Part000.State) (resp : Part000.CreateOutcome),
        s.newName = "" ∨ s.newAge = none ∨ s.newAge = some 0 →
        Part000.addBuddy s resp = (s, ⟨[], []⟩))
    ∧ (∀ (s : BuddyTable.State) (resp : BuddyTable.WriteOutcome)
          (refetch : BuddyTable.FetchOutcome),
        s.newName = "" ∨ s.newAge = "" →
        BuddyTable.addBuddy s resp refetch = (s, ⟨[], []⟩)) := by
  constructor
  · intro s resp h
    rcases h with h | h | h
      <;> simp [Part000.addBuddy, JS.strFalsy, JS.numFalsy, h]
  · intro s resp refetch h
    rcases h with h | h
      <;> simp [BuddyTable.addBuddy, JS.strFalsy, h]

/-- State for the C3 witness: the add form holds `create("", 5)` in the
`part_000` variant. -/
def createGuardStateA : Part000.State :=
  { buddies := [], isLoading := false, error := none, newName := "",
    newAge := some 5, editingId := none, editName := "", editAge := none }

/-- State for the C3 witness: the add form holds `create("Sam", "")` in
the `BuddyTable.svelte` variant. -/
def createGuardStateB : BuddyTable.State :=
  { buddies := [], isLoading := false, error := none, newName := "Sam",
    newAge := "", editingBuddy := none, editName := "", editAge := "" }

/-- Witness for C3 at `create("", 5)` and `create("Sam", "")`. -/
theorem C3_create_guard_witness :
    Part000.addBuddy createGuardStateA (.err "boom") = (createGuardStateA, ⟨[], []⟩)
    ∧ BuddyTable.addBuddy createGuardStateB .ok (.ok []) = (createGuardStateB, ⟨[], []⟩) :=
  ⟨C3_create_guard.1 createGuardStateA (.err "boom") (Or.inl rfl),
   C3_create_guard.2 createGuardStateB .ok (.ok []) (Or.inr rfl)⟩

/-- State for the C1 counterexample: a record is being edited in the
`BuddyTable.svelte` variant and the name buffer has been emptied. -/
def unguardedEditState : BuddyTable.State :=
  { buddies := [{ id := 7, name := "Sam", age := "25" }], isLoading := false,
    error := none, newName := "", newAge := "",
    editingBuddy := some { id := 7, name := "Sam", age := "25" },
    editName := "", editAge := "30" }

/-- Claim C1 counterexample: in the `BuddyTable.svelte` variant a save
with an empty name buffer is NOT a no-op — the PUT request (with the
empty name in its body) is still issued. -/
theorem C1_counterexample :
    unguardedEditState.editName = ""
    ∧ (BuddyTable.saveEdit unguardedEditState (.httpError 500) (.ok [])).2.requests
        = [BuddyTable.Request.update 7 "" "30"] :=
  ⟨rfl, rfl⟩

/-- Claim C1 (amended): in the `part_000` variant, saving an edit is
guarded like create — an empty/falsy name or age buffer makes `saveEdit` a
no-op (no request, no alert, state unchanged).  In the
`BuddyTable.svelte` variant the only guard is the absence of a record
being edited: `saveEdit` is a no-op when `editingBuddy` is null, and empty
buffers do not prevent the request. -/
theorem C1_update_guard :
    (∀ (s : Part000.State) (id : Int) (resp : Part000.ActionOutcome),
        s.editName = "" ∨ s.editAge = none ∨ s.editAge = some 0 →
        Part000.saveEdit s id resp = (s, ⟨[], []⟩))
    ∧ (∀ (s : BuddyTable.State) (resp : BuddyTable.WriteOutcome)
          (refetch : BuddyTable.FetchOutcome),
        s.editingBuddy = none →
        BuddyTable.saveEdit s resp refetch = (s, ⟨[], []⟩)) := by
  constructor
  · intro s id resp h
    rcases h with h | h | h
      <;> simp [Part000.saveEdit, JS.strFalsy, JS.numFalsy, h]
  · intro s resp refetch h
    simp [BuddyTable.saveEdit, h]

/-- State for the C1 witness: editing record 7 with an emptied name
buffer in the `part_000` variant. -/
def editGuardStateA : Part000.State :=
  { buddies := [{ id := 7, name := "Sam", age := 25 }], isLoading := false,
    error := none, newName := "", newAge := none, editingId := some 7,
    editName := "", editAge := some 26 }

/-- State for the C1 witness: the `BuddyTable.svelte` variant outside
edit mode. -/
def viewingStateB : BuddyTable.State :=
  { buddies := [], isLoading := false, error := none, newName := "",
    newAge := "", editingBuddy := none, editName := "x", editAge := "1" }

/-- Witness for the amended C1 at concrete states. -/
theorem C1_update_guard_witness :
    Part000.saveEdit editGuardStateA 7 .ok = (editGuardStateA, ⟨[], []⟩)
    ∧ BuddyTable.saveEdit viewingStateB .ok (.ok []) = (viewingStateB, ⟨[], []⟩) :=
  ⟨C1_update_guard.1 editGuardStateA 7 .ok (Or.inl rfl),
   C1_update_guard.2 viewingStateB .ok (.ok []) rfl⟩

/-- Claim C4: a successful save of an edit in the `part_000` variant
replaces exactly the targeted record in place: the collection keeps its
length, the position holding the target id gets exactly the new name and
age with the id unchanged, and every record with a different id is
unchanged at its position. -/
theorem C4_update_frame :
    ∀ (s : Part000.State) (id : Int) (a : Int),
      s.editAge = some a → a ≠ 0 → s.editName ≠ "" →
      (Part000.saveEdit s id .ok).1.buddies.length = s.buddies.length
      ∧ ∀ (i : Nat) (b : Part000.Buddy), s.buddies[i]? = some b →
          (b.id = id →
            (Part000.saveEdit s id .ok).1.buddies[i]?
              = some { id := id, name := s.editName, age := a })
          ∧ (b.id ≠ id → (Part000.saveEdit s id .ok).1.buddies[i]? = some b) := by
  intro s id a hage haz hname
  have h1 : JS.strFalsy s.editName = false := by
    simp [JS.strFalsy, hname]
  have h2 : JS.numFalsy (some a) = false := by
    simp [JS.numFalsy, haz]
  have hb : (Part000.saveEdit s id .ok).1.buddies
      = s.buddies.map fun b =>
          if b.id = id then { id := id, name := s.editName, age := a } else b := by
    simp [Part000.saveEdit, hage, h1, h2]
  constructor
  · simp [hb]
  · intro i b hib
    constructor
    · intro hbid
      rw [hb, List.getElem?_map, hib]
      simp [hbid]
    · intro hbid
      rw [hb, List.getElem?_map, hib]
      simp [hbid]

/-- State for the C4 witness: editing record 7 with buffers "Samuel" /
26, next to an unrelated record 3. -/
def updateFrameState : Part000.State :=
  { buddies := [{ id := 3, name := "Ana", age := 30 },
                { id := 7, name := "Sam", age := 25 }],
    isLoading := false, error := none, newName := "", newAge := none,
    editingId := some 7, editName := "Samuel", editAge := some 26 }

/-- Witness for C4: update(7, "Samuel", 26) rewrites record 7 in place
and leaves record 3 untouched. -/
theorem C4_update_frame_witness :
    (Part000.saveEdit updateFrameState 7 .ok).1.buddies.length
        = updateFrameState.buddies.length
    ∧ (Part000.saveEdit updateFrameState 7 .ok).1.buddies[1]?
        = some { id := 7, name := "Samuel", age := 26 }
    ∧ (Part000.saveEdit updateFrameState 7 .ok).1.buddies[0]?
        = some { id := 3, name := "Ana", age := 30 } := by
  have h := C4_update_frame updateFrameState 7 26 rfl (by decide) (by decide)
  exact ⟨h.1, (h.2 1 { id := 7, name := "Sam", age := 25 } rfl).1 rfl,
    (h.2 0 { id := 3, name := "Ana", age := 30 } rfl).2 (by decide)⟩

/-- Claim C5: delete semantics.  In the `part_000` variant a confirmed
delete whose request succeeds leaves no record with the target id in the
local collection, and a rejected delete leaves the whole state untouched
and surfaces the server's error message via `alert`.  In the
`BuddyTable.svelte` variant a rejected delete leaves the collection
unchanged and surfaces the failure in the error banner, while a
successful delete resynchronizes the collection from the server's fresh
listing. -/
theorem C5_delete :
    (∀ (s : Part000.State) (id : Int),
        ((Part000.deleteBuddy s id true .ok).1.buddies.all fun b => b.id != id) = true)
    ∧ (∀ (s : Part000.State) (id : Int) (m : String),
        Part000.deleteBuddy s id true (.err m)
          = (s, ⟨[Part000.Request.del id], [m]⟩))
    ∧ (∀ (s : BuddyTable.State) (id : Int) (n : Nat)
          (refetch : BuddyTable.FetchOutcome),
        (BuddyTable.deleteBuddy s id true (.httpError n) refetch).1.buddies = s.buddies
        ∧ (BuddyTable.deleteBuddy s id true (.httpError n) refetch).1.error
            = some ("Error deleting buddy: HTTP status " ++ toString n))
    ∧ (∀ (s : BuddyTable.State) (id : Int) (data : List BuddyTable.Buddy),
        (BuddyTable.deleteBuddy s id true .ok (.ok data)).1.buddies = data) := by
  refine ⟨?_, ?_, ?_, ?_⟩
  · intro s id
    simp only [Part000.deleteBuddy, Bool.not_true, Bool.false_eq_true, if_false,
      List.all_eq_true]
    intro b hb
    exact (List.mem_filter.mp hb).2
  · intro s id m
    rfl
  · intro s id n refetch
    exact ⟨rfl, rfl⟩
  · intro s id data
    simp [BuddyTable.deleteBuddy, BuddyTable.fetchBuddies]

/-- Claim C8: a failed save (non-2xx response or thrown transport error)
leaves the component in Editing — the editing marker, both edit buffers,
and the local collection are all unchanged — in both variants. -/
theorem C8_save_failure_frame :
    (∀ (s : Part000.State) (id : Int) (m : String),
        (Part000.saveEdit s id (.err m)).1.editingId = s.editingId
        ∧ (Part000.saveEdit s id (.err m)).1.editName = s.editName
        ∧ (Part000.saveEdit s id (.err m)).1.editAge = s.editAge
        ∧ (Part000.saveEdit s id (.err m)).1.buddies = s.buddies)
    ∧ (∀ (s : Part000.State) (id : Int) (m : String),
        (Part000.saveEdit s id (.threw m)).1.editingId = s.editingId
        ∧ (Part000.saveEdit s id (.threw m)).1.editName = s.editName
        ∧ (Part000.saveEdit s id (.threw m)).1.editAge = s.editAge
        ∧ (Part000.saveEdit s id (.threw m)).1.buddies = s.buddies)
    ∧ (∀ (s : BuddyTable.State) (n : Nat) (refetch : BuddyTable.FetchOutcome),
        (BuddyTable.saveEdit s (.httpError n) refetch).1.editingBuddy = s.editingBuddy
        ∧ (BuddyTable.saveEdit s (.httpError n) refetch).1.editName = s.editName
        ∧ (BuddyTable.saveEdit s (.httpError n) refetch).1.editAge = s.editAge
        ∧ (BuddyTable.saveEdit s (.httpError n) refetch).1.buddies = s.buddies)
    ∧ (∀ (s : BuddyTable.State) (m : String) (refetch : BuddyTable.FetchOutcome),
        (BuddyTable.saveEdit s (.threw m) refetch).1.editingBuddy = s.editingBuddy
        ∧ (BuddyTable.saveEdit s (.threw m) refetch).1.editName = s.editName
        ∧ (BuddyTable.saveEdit s (.threw m) refetch).1.editAge = s.editAge
        ∧ (BuddyTable.saveEdit s (.threw m) refetch).1.buddies = s.buddies) := by
  refine ⟨?_, ?_, ?_, ?_⟩
  · intro s id m
    unfold Part000.saveEdit
    split
    · exact ⟨rfl, rfl, rfl, rfl⟩
    · exact ⟨rfl, rfl, rfl, rfl⟩
  · intro s id m
    unfold Part000.saveEdit
    split
    · exact ⟨rfl, rfl, rfl, rfl⟩
    · exact ⟨rfl, rfl, rfl, rfl⟩
  · intro s n refetch
    cases h : s.editingBuddy <;> simp [BuddyTable.saveEdit, h]
  · intro s m refetch
    cases h : s.editingBuddy <;> simp [BuddyTable.saveEdit, h]
